import Mathlib

/-!
Verification development for the FiftyOne operator-execution core
(`fiftyone/operators/executor.py`).

The Python source is shallowly embedded below:

* Python runtime values are the inductive `Value` (numbers, strings,
  booleans, lists, string-keyed dicts, `None`).
* Raised Python exceptions are modelled with `Except PyErr`.
* The recursive schema validator (`ValidationContext.validate_*`) is
  embedded as a family of mutually recursive functions.  The recursion of
  the source is bounded here by an explicit `fuel : Nat` argument that is
  consumed on every call; `PyErr.fuelExhausted` is an artifact of that
  bounded embedding and is unreachable whenever the fuel exceeds the
  (finite) recursion depth of the source, which is bounded by the sizes of
  the schema and of the value.  `ValidationContext.create` supplies such a
  sufficient fuel.
* The execute-or-delegate coordinator (`execute_or_delegate_operator`) is
  embedded with its external collaborators (operator registry, secrets
  resolver, delegated-operation queue, the operator hooks themselves)
  supplied as an explicit environment `Env`.  Each awaited external call
  additionally reports an abstract duration (a `Nat`), so that the
  `coroutine_timeout` decorator wrapping the coordinator can be modelled:
  the invocation times out when the accumulated duration of the whole
  decorated coroutine exceeds the configured limit.
-/

set_option maxRecDepth 10000

namespace Fiftyone

/-- Python runtime values, as far as the executor core observes them:
`None`, booleans, ints, floats (represented as rationals; no float
arithmetic is performed by the source), strings, lists, and string-keyed
dicts (association lists in insertion order). -/
inductive Value : Type where
  | none : Value
  | bool : Bool → Value
  | int : Int → Value
  | float : Rat → Value
  | str : String → Value
  | list : List Value → Value
  | dict : List (String × Value) → Value

/-- Python's `type(v).__name__` for the embedded values. -/
def Value.typeName : Value → String
  | .none => "NoneType"
  | .bool _ => "bool"
  | .int _ => "int"
  | .float _ => "float"
  | .str _ => "str"
  | .list _ => "list"
  | .dict _ => "dict"

/-- Whether the value is Python's `None`. -/
def Value.isNone : Value → Bool
  | .none => true
  | _ => false

/-- Python truthiness (used by `x or default`). -/
def Value.isFalsy : Value → Bool
  | .none => true
  | .bool b => !b
  | .int n => n == 0
  | .float q => decide (q = 0)
  | .str s => s == ""
  | .list xs => xs.isEmpty
  | .dict kvs => kvs.isEmpty

/-- Python's `x or default` for an optional value (used for `params or {}`
in the source). -/
def pyOr (v : Option Value) (default : Value) : Value :=
  match v with
  | Option.none => default
  | Option.some w => if w.isFalsy then default else w

mutual

/-- Python `==` on embedded values.  Scalars compare with Python's numeric
cross-type equality (`True == 1`, `1 == 1.0`); lists compare pointwise;
dicts compare as key-value maps. -/
def pyEq : Value → Value → Bool
  | .none, .none => true
  | .bool a, .bool b => a == b
  | .bool a, .int n => (if a then (1 : Int) else 0) == n
  | .int n, .bool a => n == (if a then (1 : Int) else 0)
  | .bool a, .float q => decide ((if a then (1 : Rat) else 0) = q)
  | .float q, .bool a => decide (q = (if a then (1 : Rat) else 0))
  | .int a, .int b => a == b
  | .int a, .float b => decide ((a : Rat) = b)
  | .float a, .int b => decide (a = (b : Rat))
  | .float a, .float b => decide (a = b)
  | .str a, .str b => a == b
  | .list xs, .list ys => pyEqList xs ys
  | .dict xs, .dict ys => xs.length == ys.length && pyEqDict xs ys
  | _, _ => false

/-- Pointwise Python `==` on lists. -/
def pyEqList : List Value → List Value → Bool
  | [], [] => true
  | x :: xs, y :: ys => pyEq x y && pyEqList xs ys
  | _, _ => false

/-- Keywise Python `==` on dicts: every key of the first dict is present in
the second with an equal value (lengths are compared by the caller). -/
def pyEqDict : List (String × Value) → List (String × Value) → Bool
  | [], _ => true
  | kv :: rest, ys =>
    (match ys.find? (fun kv2 => kv2.1 == kv.1) with
     | Option.some kv2 => pyEq kv.2 kv2.2
     | Option.none => false) && pyEqDict rest ys

end

/-- Raised Python exceptions observed at the coordinator boundary.
`fuelExhausted` is an artifact of the bounded embedding of the recursive
validator and never occurs at the fuel supplied by
`ValidationContext.create`. -/
inductive PyErr : Type where
  | valueError : String → PyErr
  | attributeError : String → PyErr
  | typeError : String → PyErr
  | indexError : String → PyErr
  | executionError : Option String → PyErr
  | timeoutError : String → PyErr
  | raised : String → PyErr
  | fuelExhausted : PyErr
deriving DecidableEq

/-- Python `value.get(name, None)`: dict lookup with `None` default; any
non-dict value has no `get` attribute and raises `AttributeError`. -/
def Value.pyGet : Value → String → Except PyErr Value
  | .dict kvs, k =>
    .ok (((kvs.find? (fun kv => kv.1 == k)).map (fun kv => kv.2)).getD Value.none)
  | v, _ => .error (.attributeError (v.typeName ++ " object has no attribute get"))

/-- A validation error (`ValidationError` in the source): the reason, the
error message copied from the property, the dot/bracket path, and the
`custom` flag.  `reason` is optional because the source passes
`property.error_message` (possibly `None`) as the reason for a
schema-marked-invalid node. -/
structure ValidationError : Type where
  reason : Option String
  error_message : Option String
  path : String
  custom : Bool
deriving DecidableEq

mutual

/-- Schema node types from `fiftyone.operators.types` as the validator
distinguishes them (`String`, `Number`, `Boolean`, `Enum`, `Object`,
`List`, anything else).  Object properties are an insertion-ordered map
from child name to child `Property`. -/
inductive SchemaType : Type where
  | string : SchemaType
  | number : SchemaType
  | boolean : SchemaType
  | enum : List Value → SchemaType
  | obj : List (String × Property) → SchemaType
  | list : SchemaType → SchemaType
  | other : String → SchemaType

/-- A schema property (`types.Property`): its type, the `required` and
`invalid` flags, and the optional `error_message`. -/
inductive Property : Type where
  | mk : SchemaType → Bool → Bool → Option String → Property

end

/-- The `type` field of a property. -/
def Property.type : Property → SchemaType
  | .mk t _ _ _ => t

/-- The `required` flag of a property. -/
def Property.required : Property → Bool
  | .mk _ r _ _ => r

/-- The `invalid` flag of a property. -/
def Property.invalid : Property → Bool
  | .mk _ _ i _ => i

/-- The `error_message` of a property. -/
def Property.error_message : Property → Option String
  | .mk _ _ _ m => m

/-- Python `property.type.__class__.__name__` as used by
`validate_primitive`. -/
def SchemaType.className : SchemaType → String
  | .string => "String"
  | .number => "Number"
  | .boolean => "Boolean"
  | .enum _ => "Enum"
  | .obj _ => "Object"
  | .list _ => "List"
  | .other n => n

/-- The `element_type` attribute, present only on `List` schema types. -/
def SchemaType.element_type : SchemaType → Option SchemaType
  | .list t => Option.some t
  | _ => Option.none

/-- The `values` attribute, present only on `Enum` schema types. -/
def SchemaType.values : SchemaType → Option (List Value)
  | .enum vs => Option.some vs
  | _ => Option.none

/-- The `properties` attribute, present only on `Object` schema types. -/
def SchemaType.properties : SchemaType → Option (List (String × Property))
  | .obj ps => Option.some ps
  | _ => Option.none

/-- `ValidationContext.add_error`: when schema validation is disabled for
the operator, an error is appended only if its `custom` flag is true;
otherwise it is always appended.  The accumulated error list is threaded
explicitly here in place of the mutable `self.errors`. -/
def add_error (disable_schema_validation : Bool) (errors : List ValidationError)
    (error : ValidationError) : List ValidationError :=
  if disable_schema_validation && !error.custom then errors else errors ++ [error]

/-- `ValidationContext.validate_enum`: error unless the value is a member
(under Python `==`) of the declared enum values. -/
def validate_enum (path : String) (property : Property) (value : Value) :
    Option ValidationError :=
  match property.type.values with
  | Option.some vs =>
    if vs.any (fun e => pyEq e value) then Option.none
    else Option.some ⟨Option.some "Invalid enum value", property.error_message, path, false⟩
  | Option.none => Option.none

/-- `ValidationContext.validate_primitive`: dispatch on the schema type
class name; `Number` accepts Python ints and floats; any other class name
produces no error. -/
def validate_primitive (path : String) (property : Property) (value : Value) :
    Option ValidationError :=
  let type_name := property.type.className
  let value_type := value.typeName
  if type_name == "String" && value_type != "str" then
    Option.some ⟨Option.some "Invalid value type", property.error_message, path, false⟩
  else if type_name == "Number" && (value_type != "int" && value_type != "float") then
    Option.some ⟨Option.some "Invalid value type", property.error_message, path, false⟩
  else if type_name == "Boolean" && value_type != "bool" then
    Option.some ⟨Option.some "Invalid value type", property.error_message, path, false⟩
  else
    Option.none

mutual

/-- `ValidationContext.validate_property`: schema-invalid nodes produce a
`custom` error and stop; required-but-absent values produce a
"Required property" error and stop; present values dispatch on the schema
type; absent optional values produce nothing.  The returned pair is the
threaded error accumulator together with the function's return value
(`Option ValidationError`). -/
def validate_property (disable : Bool) :
    Nat → List ValidationError → String → Property → Value →
    Except PyErr (List ValidationError × Option ValidationError)
  | 0, _, _, _, _ => .error .fuelExhausted
  | fuel + 1, errors, path, property, value =>
    if property.invalid then
      .ok (errors, Option.some ⟨property.error_message, property.error_message, path, true⟩)
    else if property.required && value.isNone then
      .ok (errors, Option.some ⟨Option.some "Required property", property.error_message, path, false⟩)
    else if value.isNone then
      .ok (errors, Option.none)
    else
      match property.type with
      | .enum _ => .ok (errors, validate_enum path property value)
      | .obj _ => validate_object disable fuel errors path property value
      | .list _ => validate_list disable fuel errors path property value
      | _ => .ok (errors, validate_primitive path property value)

/-- `ValidationContext.validate_object`: the source only guards
`value is None` (unreachable from `validate_property`) and then iterates
the declared child properties, reading `value.get(name, None)` — which
raises `AttributeError` when the value is not a dict. -/
def validate_object (disable : Bool) :
    Nat → List ValidationError → String → Property → Value →
    Except PyErr (List ValidationError × Option ValidationError)
  | 0, _, _, _, _ => .error .fuelExhausted
  | fuel + 1, errors, path, property, value =>
    if value.isNone then
      .ok (errors, Option.some ⟨Option.some "Invalid object", property.error_message, path, false⟩)
    else
      match property.type.properties with
      | Option.none => .error (.attributeError "type object has no attribute properties")
      | Option.some props =>
        match validate_object_items disable fuel errors path props value with
        | .error e => .error e
        | .ok errors2 => .ok (errors2, Option.none)

/-- The loop body of `validate_object`: for every declared child name, in
order, validate `value.get(name, None)` at path `path + "." + name` and
accumulate the child's returned error through `add_error`. -/
def validate_object_items (disable : Bool) :
    Nat → List ValidationError → String → List (String × Property) → Value →
    Except PyErr (List ValidationError)
  | _, errors, _, [], _ => .ok errors
  | 0, _, _, _ :: _, _ => .error .fuelExhausted
  | fuel + 1, errors, path, (name, prop) :: rest, value =>
    match value.pyGet name with
    | .error e => .error e
    | .ok propertyValue =>
      match validate_property disable fuel errors (path ++ "." ++ name) prop propertyValue with
      | .error e => .error e
      | .ok (errors2, ret) =>
        let errors3 := match ret with
          | Option.some ve => add_error disable errors2 ve
          | Option.none => errors2
        validate_object_items disable fuel errors3 path rest value

/-- `ValidationContext.validate_list`: non-list values produce an
"Invalid list" error; otherwise every element is validated against a fresh
`types.Property(element_type)` at path `path + "[i]"`. -/
def validate_list (disable : Bool) :
    Nat → List ValidationError → String → Property → Value →
    Except PyErr (List ValidationError × Option ValidationError)
  | 0, _, _, _, _ => .error .fuelExhausted
  | fuel + 1, errors, path, property, value =>
    match value with
    | .list items =>
      match property.type.element_type with
      | Option.none => .error (.attributeError "type object has no attribute element_type")
      | Option.some element_type =>
        match validate_list_items disable fuel errors path element_type items 0 with
        | .error e => .error e
        | .ok errors2 => .ok (errors2, Option.none)
    | _ => .ok (errors, Option.some ⟨Option.some "Invalid list", property.error_message, path, false⟩)

/-- The loop body of `validate_list`: each element is validated against
`Property.mk element_type false false none` — the defaults of the
`types.Property` constructor (modelled from the spec: `types.py` is not
part of the embedded source; schema nodes are "optionally
required/invalid-with-message", so a bare `Property(element_type)` carries
neither flag) — and the returned error is accumulated through
`add_error`. -/
def validate_list_items (disable : Bool) :
    Nat → List ValidationError → String → SchemaType → List Value → Nat →
    Except PyErr (List ValidationError)
  | _, errors, _, _, [], _ => .ok errors
  | 0, _, _, _, _ :: _, _ => .error .fuelExhausted
  | fuel + 1, errors, path, element_type, item :: rest, i =>
    let item_path := path ++ "[" ++ toString i ++ "]"
    let item_property : Property := .mk element_type false false Option.none
    match validate_property disable fuel errors item_path item_property item with
    | .error e => .error e
    | .ok (errors2, ret) =>
      let errors3 := match ret with
        | Option.some ve => add_error disable errors2 ve
        | Option.none => errors2
      validate_list_items disable fuel errors3 path element_type rest (i + 1)

end

/-- A request to invoke an operator (`InvocationRequest`): the operator
URI and the parameter dict (`params or {}`). -/
structure InvocationRequest : Type where
  operator_uri : String
  params : Value

/-- Message type tags.  Modelled from the spec: the `message` module is
not part of the embedded source; `trigger` "returns a success-tagged
message wrapping the request". -/
inductive MessageType : Type where
  | SUCCESS : MessageType
  | ERROR : MessageType
deriving DecidableEq

/-- A generated message carrying an invocation request.  Modelled from the
spec: the `message` module is not part of the embedded source. -/
structure GeneratedMessage : Type where
  type : MessageType
  body : InvocationRequest

/-- The `Executor`: ordered, append-only lists of triggered invocation
requests and of log messages. -/
structure Executor : Type where
  requests : List InvocationRequest
  logs : List Value

/-- `Executor.trigger`: append one `InvocationRequest` and return a
success-tagged message carrying it, together with the updated executor
(in place of the in-place mutation of the source). -/
def Executor.trigger (ex : Executor) (operator_name : String) (params : Option Value) :
    Executor × GeneratedMessage :=
  let inv_req : InvocationRequest := ⟨operator_name, pyOr params (Value.dict [])⟩
  ({ ex with requests := ex.requests ++ [inv_req] }, ⟨MessageType.SUCCESS, inv_req⟩)

/-- The per-invocation `ExecutionContext`: the request parameter dict, the
derived `params` dict, the optional `Executor`, and the resolved secrets
map. -/
structure ExecutionContext : Type where
  request_params : List (String × Value)
  params : Value
  executor : Option Executor
  secrets : List (String × String)

/-- `ExecutionContext.__init__`: `params` is
`request_params.get("params", {})`; the secrets map starts empty. -/
def ExecutionContext.create (request_params : List (String × Value))
    (executor : Option Executor) : ExecutionContext :=
  { request_params := request_params
    params := ((request_params.find? (fun kv => kv.1 == "params")).map (fun kv => kv.2)).getD
      (Value.dict [])
    executor := executor
    secrets := [] }

/-- `ExecutionContext.trigger`: raises `ValueError` when the context was
built without an executor; otherwise delegates to `Executor.trigger`,
returning the updated context together with the message. -/
def ExecutionContext.trigger (ctx : ExecutionContext) (operator_name : String)
    (params : Option Value) : Except PyErr (ExecutionContext × GeneratedMessage) :=
  match ctx.executor with
  | Option.none => .error (.valueError "No executor available")
  | Option.some ex =>
    let (ex2, msg) := ex.trigger operator_name params
    .ok ({ ctx with executor := Option.some ex2 }, msg)

/-- `ExecutionContext.serialize`: the JSON dict with the request params
and the params. -/
def ExecutionContext.serialize (ctx : ExecutionContext) : Value :=
  Value.dict [("request_params", Value.dict ctx.request_params), ("params", ctx.params)]

/-- Dict assignment `m[k] = v`: replace in place when the key exists,
append otherwise. -/
def dictSet (m : List (String × String)) (k v : String) : List (String × String) :=
  if m.any (fun kv => kv.1 == k) then
    m.map (fun kv => if kv.1 == k then (k, v) else kv)
  else
    m ++ [(k, v)]

/-- A resolved secret (`{key, value}`), as returned by the external
secrets resolver. -/
structure Secret : Type where
  key : String
  value : String

/-- The loop of `ExecutionContext.resolve_secret_values`: each key is
resolved through the external secrets client (an awaited call, so it
reports an abstract duration); a truthy result is stored in the secrets
map.  A raised exception aborts the loop and propagates. -/
def resolve_secret_loop (get_secret : String → Except PyErr (Option Secret) × Nat) :
    ExecutionContext → List String → Except PyErr ExecutionContext × Nat
  | ctx, [] => (.ok ctx, 0)
  | ctx, key :: rest =>
    match get_secret key with
    | (.error e, t) => (.error e, t)
    | (.ok osecret, t) =>
      let ctx2 := match osecret with
        | Option.some s => { ctx with secrets := dictSet ctx.secrets s.key s.value }
        | Option.none => ctx
      let (out, t2) := resolve_secret_loop get_secret ctx2 rest
      (out, t + t2)

/-- `ExecutionContext.resolve_secret_values`: no-op when the key list is
`None`, otherwise the resolution loop. -/
def resolve_secret_values (get_secret : String → Except PyErr (Option Secret) × Nat)
    (ctx : ExecutionContext) : Option (List String) → Except PyErr ExecutionContext × Nat
  | Option.none => (.ok ctx, 0)
  | Option.some keys => resolve_secret_loop get_secret ctx keys

/-- The operator configuration bits the executor reads. -/
structure OperatorConfig : Type where
  disable_schema_validation : Bool

/-- An operator as the coordinator consumes it: its URI, delegation
target, declared plugin secret keys, config, and the three hooks
(`resolve_input`, `resolve_delegation`, `execute`).  Hooks may raise
(`Except.error`) and the awaited ones report an abstract duration;
`execute` returns the possibly mutated context (the source mutates the
shared context/executor in place) together with the raw result. -/
structure Operator : Type where
  uri : String
  delegation_target : Option String
  plugin_secrets : Option (List String)
  config : OperatorConfig
  resolve_input : ExecutionContext → Except PyErr (Option Property) × Nat
  resolve_delegation : ExecutionContext → Except PyErr Bool × Nat
  execute : ExecutionContext → Except PyErr (ExecutionContext × Value) × Nat

/-- The per-validation-run `ValidationContext`: the params being
validated, the inputs schema, the accumulated ordered error list, the
`disable_schema_validation` flag copied from the operator config, and the
derived `invalid` boolean. -/
structure ValidationContext : Type where
  params : Value
  inputs_property : Option Property
  errors : List ValidationError
  disable_schema_validation : Bool
  invalid : Bool

mutual

/-- A size measure on values (every list and dict level contributes its
length), used only to compute a sufficient validation fuel. -/
def valueSize : Value → Nat
  | .none => 1
  | .bool _ => 1
  | .int _ => 1
  | .float _ => 1
  | .str _ => 1
  | .list xs => 1 + valueSizeL xs
  | .dict kvs => 1 + valueSizeD kvs

/-- List part of `valueSize`. -/
def valueSizeL : List Value → Nat
  | [] => 0
  | x :: xs => valueSize x + valueSizeL xs + 1

/-- Dict part of `valueSize`. -/
def valueSizeD : List (String × Value) → Nat
  | [] => 0
  | kv :: kvs => valueSize kv.2 + valueSizeD kvs + 1

end

mutual

/-- A size measure on schema types, used only to compute a sufficient
validation fuel. -/
def schemaSize : SchemaType → Nat
  | .string => 1
  | .number => 1
  | .boolean => 1
  | .enum _ => 1
  | .obj ps => 1 + schemaSizeProps ps
  | .list t => 1 + schemaSize t
  | .other _ => 1

/-- Child-list part of `schemaSize`. -/
def schemaSizeProps : List (String × Property) → Nat
  | [] => 0
  | (_, p) :: rest => propertySize p + schemaSizeProps rest + 1

/-- Property part of `schemaSize`. -/
def propertySize : Property → Nat
  | .mk t _ _ _ => schemaSize t + 1

end

/-- Fuel that strictly dominates the recursion depth of the validator on
the given schema and value: every fuel-consuming step of the embedding
descends into the schema or, for list/object element loops, into the
value, and at most three fuel units are consumed per source-level step. -/
def validationFuel (property : Property) (value : Value) : Nat :=
  3 * (propertySize property + valueSize value) + 9

/-- `ValidationContext.__init__`: when the operator declares no inputs
schema the context is valid with no errors; otherwise `_validate` runs,
the root call's returned error (if any) is accumulated through
`add_error`, and `invalid` is derived as non-emptiness of the error list.
A crash of the validator (the `value.get` `AttributeError`) propagates as
a raised exception out of the constructor. -/
def ValidationContext.create (ctx : ExecutionContext) (inputs_property : Option Property)
    (operator : Operator) : Except PyErr ValidationContext :=
  let disable := operator.config.disable_schema_validation
  match inputs_property with
  | Option.none =>
    .ok { params := ctx.params, inputs_property := Option.none, errors := []
          disable_schema_validation := disable, invalid := false }
  | Option.some prop =>
    match validate_property disable (validationFuel prop ctx.params) [] "" prop ctx.params with
    | .error e => .error e
    | .ok (errors, ret) =>
      let errors2 := match ret with
        | Option.some ve => add_error disable errors ve
        | Option.none => errors
      .ok { params := ctx.params, inputs_property := Option.some prop, errors := errors2
            disable_schema_validation := disable, invalid := decide (errors2.length > 0) }

/-- What `ExecutionResult.result` can hold at the coordinator boundary:
either the raw value returned by `execute`, or the `__dict__` snapshot of
a queued delegated operation (its embedded context already re-serialized,
per the in-place mutation in the delegation branch of the source). -/
inductive ResultValue : Type where
  | value : Value → ResultValue
  | jobDict : Option Value → List (String × Value) → ResultValue

/-- The result envelope (`ExecutionResult`). -/
structure ExecutionResult : Type where
  result : Option ResultValue
  executor : Option Executor
  error : Option String
  validation_ctx : Option ValidationContext
  delegated : Bool

/-- The `ExecutionError` exception: its message (Python allows `None`). -/
structure ExecutionError : Type where
  message : Option String

/-- Strip all leading `.` characters (`str.lstrip(".")`). -/
def lstripDots (s : String) : String :=
  String.mk (s.toList.dropWhile (fun c => c = Char.ofNat 46))

/-- Python `f"{x}"` for an optional string (`None` renders as "None"). -/
def pyShowOpt : Option String → String
  | Option.some s => s
  | Option.none => "None"

/-- `ExecutionResult.to_exception`: the message is `self.error`; when the
carried validation context is invalid, the first validation error's
lstripped path and reason are appended.  The source accesses
`self.validation_ctx.invalid` unconditionally, so a result without a
validation context raises `AttributeError`; a `None` error with an invalid
context raises `TypeError` from `None + str`. -/
def ExecutionResult.to_exception (r : ExecutionResult) : Except PyErr ExecutionError :=
  match r.validation_ctx with
  | Option.none => .error (.attributeError "NoneType object has no attribute invalid")
  | Option.some vc =>
    if vc.invalid then
      match r.error with
      | Option.none => .error (.typeError "unsupported operand type for NoneType and str")
      | Option.some base =>
        match vc.errors with
        | [] => .error (.indexError "list index out of range")
        | val_error :: _ =>
          .ok ⟨Option.some (base ++ ". Path: " ++ lstripDots val_error.path
                ++ ". Reason: " ++ pyShowOpt val_error.reason)⟩
    else
      .ok ⟨r.error⟩

/-- A queued delegated operation as returned by the external
`DelegatedOperationService.queue_operation`.  Modelled from the spec:
`delegated.py` is not part of the embedded source; the spec says the queue
returns a "queuedJobSnapshot" whose "fields include an embeddable context,
later re-serialized". -/
structure QueuedJob : Type where
  context : Option ExecutionContext
  fields : List (String × Value)

/-- The external collaborators of the coordinator: the operator registry
(`operator_exists` is modelled as definedness of the lookup), the plugin
secrets resolver, and the delegated-operation queue.  Awaited calls report
an abstract duration alongside their outcome. -/
structure Env : Type where
  registry : String → Option Operator
  get_secret : String → Except PyErr (Option Secret) × Nat
  queue_operation : String → Value → Option String → Except PyErr QueuedJob × Nat

/-- The outcome of `prepare_operator_executor`: either an `ExecutionResult`
describing a validation failure, or the ready triple
(operator, executor, context). -/
inductive Prepared : Type where
  | failed : ExecutionResult → Prepared
  | ready : Operator → Executor → ExecutionContext → Prepared

/-- `prepare_operator_executor`: raise `ValueError` when the operator URI
is not registered (the source message is "Operator '%s' does not exist";
the quotes are omitted here); otherwise build a fresh executor and
context, resolve the declared plugin secrets (a raised exception
propagates), resolve the inputs schema (a raised exception propagates),
and run validation.  An invalid validation context yields the
`failed` envelope with error "Validation error"; otherwise the ready
triple is returned.  The second component is the accumulated duration of
the awaited calls. -/
def prepare_operator_executor (env : Env) (operator_uri : String)
    (request_params : List (String × Value)) : Except PyErr Prepared × Nat :=
  match env.registry operator_uri with
  | Option.none => (.error (.valueError ("Operator " ++ operator_uri ++ " does not exist")), 0)
  | Option.some operator =>
    let executor : Executor := ⟨[], []⟩
    let ctx := ExecutionContext.create request_params (Option.some executor)
    match resolve_secret_values env.get_secret ctx operator.plugin_secrets with
    | (.error e, t1) => (.error e, t1)
    | (.ok ctx2, t1) =>
      match operator.resolve_input ctx2 with
      | (.error e, t2) => (.error e, t1 + t2)
      | (.ok inputs, t2) =>
        match ValidationContext.create ctx2 inputs operator with
        | .error e => (.error e, t1 + t2)
        | .ok validation_ctx =>
          if validation_ctx.invalid then
            (.ok (.failed { result := Option.none, executor := Option.none
                            error := Option.some "Validation error"
                            validation_ctx := Option.some validation_ctx
                            delegated := false }), t1 + t2)
          else
            (.ok (.ready operator executor ctx2), t1 + t2)

/-- The traceback string `traceback.format_exc()` captures for a raised
exception; the exact text is abstracted, but it is always non-empty. -/
def traceback_format_exc : PyErr → String
  | .valueError m => "Traceback (most recent call last): ValueError: " ++ m
  | .attributeError m => "Traceback (most recent call last): AttributeError: " ++ m
  | .typeError m => "Traceback (most recent call last): TypeError: " ++ m
  | .indexError m => "Traceback (most recent call last): IndexError: " ++ m
  | .executionError m => "Traceback (most recent call last): ExecutionError: " ++ pyShowOpt m
  | .timeoutError m => "Traceback (most recent call last): TimeoutError: " ++ m
  | .raised m => "Traceback (most recent call last): " ++ m
  | .fuelExhausted => "Traceback (most recent call last): fuel exhausted"

/-- The body of `execute_or_delegate_operator` (before the
`coroutine_timeout` decoration): prepare; a `failed` preparation is
re-raised via `to_exception`; otherwise ask `resolve_delegation` (a raised
exception propagates).  Delegation hands the serialized context to the
queue: a queue failure is caught and returned as a Failed envelope, a
success is returned as a delegated envelope carrying the job's `__dict__`
snapshot with its embedded context re-serialized.  Otherwise `execute`
runs: a raised exception is caught and returned as a Failed envelope, a
return value is wrapped in a success envelope.  The extra `Bool` records
whether the `execute` branch was entered, and the final `Nat` is the
accumulated duration of the awaited calls. -/
def execute_or_delegate_inner (env : Env) (operator_uri : String)
    (request_params : List (String × Value)) :
    Except PyErr ExecutionResult × Bool × Nat :=
  match prepare_operator_executor env operator_uri request_params with
  | (.error e, t) => (.error e, false, t)
  | (.ok (.failed prepared), t) =>
    (match prepared.to_exception with
     | .ok exc => .error (.executionError exc.message)
     | .error e => .error e,
     false, t)
  | (.ok (.ready operator executor ctx), t) =>
    match operator.resolve_delegation ctx with
    | (.error e, t2) => (.error e, false, t + t2)
    | (.ok deleg, t2) =>
      if deleg then
        match env.queue_operation operator.uri ctx.serialize operator.delegation_target with
        | (.error e, t3) =>
          (.ok { result := Option.none, executor := Option.some executor
                 error := Option.some (traceback_format_exc e)
                 validation_ctx := Option.none, delegated := false },
           false, t + t2 + t3)
        | (.ok op, t3) =>
          (.ok { result := Option.some (.jobDict (op.context.map ExecutionContext.serialize)
                   op.fields)
                 executor := Option.some executor, error := Option.none
                 validation_ctx := Option.none, delegated := true },
           false, t + t2 + t3)
      else
        match operator.execute ctx with
        | (.error e, t3) =>
          (.ok { result := Option.none, executor := Option.some executor
                 error := Option.some (traceback_format_exc e)
                 validation_ctx := Option.none, delegated := false },
           true, t + t2 + t3)
        | (.ok (ctx2, raw_result), t3) =>
          (.ok { result := Option.some (.value raw_result), executor := ctx2.executor
                 error := Option.none, validation_ctx := Option.none, delegated := false },
           true, t + t2 + t3)

/-- `execute_or_delegate_operator` as decorated with
`@coroutine_timeout(seconds=fo.config.operator_timeout)`.  Modelled from
the spec: `decorators.py` is not part of the embedded source; the
decorator bounds the whole decorated coroutine with the configured
timeout (spec: "the whole execute-or-delegate sequence for one invocation
is bounded by a single configurable timeout", "on timeout ... a timeout
failure is produced ... not a hang"), so the invocation times out exactly
when the accumulated duration of all awaited calls of the coroutine —
preparation included — exceeds the limit. -/
def execute_or_delegate_operator (env : Env) (operator_timeout : Nat) (operator_uri : String)
    (request_params : List (String × Value)) : Except PyErr ExecutionResult × Bool :=
  match execute_or_delegate_inner env operator_uri request_params with
  | (outcome, execute_called, elapsed) =>
    if operator_timeout < elapsed then
      (.error (.timeoutError "execute_or_delegate_operator timed out"), execute_called)
    else
      (outcome, execute_called)

/-- An environment whose registry is empty (used to exercise the
operator-not-found path). -/
def envC1miss : Env :=
  { registry := fun _ => Option.none
    get_secret := fun _ => (.ok Option.none, 0)
    queue_operation := fun _ _ _ => (.error (.raised "queue unavailable"), 0) }

/-- An operator whose `execute` body raises. -/
def opC1exec : Operator :=
  { uri := "test/boom"
    delegation_target := Option.none
    plugin_secrets := Option.none
    config := ⟨false⟩
    resolve_input := fun _ => (.ok Option.none, 0)
    resolve_delegation := fun _ => (.ok false, 0)
    execute := fun _ => (.error (.raised "RuntimeError: boom"), 0) }

/-- An environment hosting `opC1exec`. -/
def envC1exec : Env :=
  { registry := fun _ => Option.some opC1exec
    get_secret := fun _ => (.ok Option.none, 0)
    queue_operation := fun _ _ _ => (.error (.raised "queue unavailable"), 0) }

/-- An operator that requests delegation. -/
def opC1queue : Operator :=
  { uri := "test/queued"
    delegation_target := Option.some "orchestrator"
    plugin_secrets := Option.none
    config := ⟨false⟩
    resolve_input := fun _ => (.ok Option.none, 0)
    resolve_delegation := fun _ => (.ok true, 0)
    execute := fun ctx => (.ok (ctx, .str "unused"), 0) }

/-- An environment hosting `opC1queue` whose queue raises. -/
def envC1queue : Env :=
  { registry := fun _ => Option.some opC1queue
    get_secret := fun _ => (.ok Option.none, 0)
    queue_operation := fun _ _ _ => (.error (.raised "OSError: queue down"), 0) }

/-- An inputs schema with one required string field `name`. -/
def inputsC2 : Property :=
  .mk (.obj [("name", .mk .string true false Option.none)]) false false Option.none

/-- An operator declaring `inputsC2` as its input schema. -/
def opC2 : Operator :=
  { uri := "test/say_hello"
    delegation_target := Option.none
    plugin_secrets := Option.none
    config := ⟨false⟩
    resolve_input := fun _ => (.ok (Option.some inputsC2), 0)
    resolve_delegation := fun _ => (.ok false, 0)
    execute := fun ctx => (.ok (ctx, .str "hi"), 0) }

/-- An environment hosting `opC2`. -/
def envC2 : Env :=
  { registry := fun _ => Option.some opC2
    get_secret := fun _ => (.ok Option.none, 0)
    queue_operation := fun _ _ _ => (.error (.raised "queue unavailable"), 0) }

/-- An operator declaring one plugin secret, with an instantaneous
`execute` body. -/
def opC3 : Operator :=
  { uri := "test/slow"
    delegation_target := Option.none
    plugin_secrets := Option.some ["api_key"]
    config := ⟨false⟩
    resolve_input := fun _ => (.ok Option.none, 0)
    resolve_delegation := fun _ => (.ok false, 0)
    execute := fun ctx => (.ok (ctx, .str "fast"), 0) }

/-- An environment hosting `opC3` whose secret resolution (the Resolving
stage) takes 101 time units. -/
def envC3slow : Env :=
  { registry := fun _ => Option.some opC3
    get_secret := fun _ => (.ok (Option.some ⟨"api_key", "v"⟩), 101)
    queue_operation := fun _ _ _ => (.error (.raised "queue unavailable"), 0) }

/-- The same environment with instantaneous secret resolution. -/
def envC3fast : Env :=
  { registry := fun _ => Option.some opC3
    get_secret := fun _ => (.ok (Option.some ⟨"api_key", "v"⟩), 0)
    queue_operation := fun _ _ _ => (.error (.raised "queue unavailable"), 0) }

/-- A queued-job snapshot fixture. -/
def jobC6 : QueuedJob :=
  { context := Option.none, fields := [("id", .str "job-1"), ("run_state", .str "queued")] }

/-- An operator that requests delegation. -/
def opC6 : Operator :=
  { uri := "test/delegate"
    delegation_target := Option.some "orchestrator"
    plugin_secrets := Option.none
    config := ⟨false⟩
    resolve_input := fun _ => (.ok Option.none, 0)
    resolve_delegation := fun _ => (.ok true, 0)
    execute := fun ctx => (.ok (ctx, .str "never run"), 0) }

/-- An environment hosting `opC6` whose queue accepts the hand-off. -/
def envC6 : Env :=
  { registry := fun _ => Option.some opC6
    get_secret := fun _ => (.ok Option.none, 0)
    queue_operation := fun _ _ _ => (.ok jobC6, 0) }

/-- A queued-job snapshot fixture. -/
def jobC7 : QueuedJob :=
  { context := Option.none, fields := [("id", .str "job-7")] }

/-- An operator that requests delegation. -/
def opC7 : Operator :=
  { uri := "test/delegate7"
    delegation_target := Option.none
    plugin_secrets := Option.none
    config := ⟨false⟩
    resolve_input := fun _ => (.ok Option.none, 0)
    resolve_delegation := fun _ => (.ok true, 0)
    execute := fun ctx => (.ok (ctx, .str "never run"), 0) }

/-- An environment hosting `opC7` whose queue accepts the hand-off. -/
def envC7 : Env :=
  { registry := fun _ => Option.some opC7
    get_secret := fun _ => (.ok Option.none, 0)
    queue_operation := fun _ _ _ => (.ok jobC7, 0) }

/-- An environment hosting `opC7` whose queue raises. -/
def envC7q : Env :=
  { registry := fun _ => Option.some opC7
    get_secret := fun _ => (.ok Option.none, 0)
    queue_operation := fun _ _ _ => (.error (.raised "OSError: queue down"), 0) }

/-- Any member of `add_error true errors e` is an old member or has its
`custom` flag set: with schema validation disabled, only custom errors
ever enter the accumulator. -/
theorem mem_add_error_true (errs : List ValidationError) (ve e : ValidationError)
    (h : e ∈ add_error true errs ve) : e ∈ errs ∨ e.custom = true := by
  unfold add_error at h
  split at h
  · exact Or.inl h
  · rcases List.mem_append.mp h with h2 | h2
    · exact Or.inl h2
    · right
      rename_i hcond
      simp only [List.mem_singleton] at h2
      subst h2
      simpa using hcond

/-- With schema validation disabled, every error the validator family adds
to the accumulator is either an old member or carries `custom = true`
(structural errors are dropped by `add_error`).  Proved simultaneously for
all five mutually recursive validators by induction on the fuel. -/
theorem validate_disable_only_custom (fuel : Nat) :
    (∀ errors path property value errors2 ret,
        validate_property true fuel errors path property value = .ok (errors2, ret) →
        ∀ e ∈ errors2, e ∈ errors ∨ e.custom = true)
    ∧ (∀ errors path property value errors2 ret,
        validate_object true fuel errors path property value = .ok (errors2, ret) →
        ∀ e ∈ errors2, e ∈ errors ∨ e.custom = true)
    ∧ (∀ errors path props value errors2,
        validate_object_items true fuel errors path props value = .ok errors2 →
        ∀ e ∈ errors2, e ∈ errors ∨ e.custom = true)
    ∧ (∀ errors path property value errors2 ret,
        validate_list true fuel errors path property value = .ok (errors2, ret) →
        ∀ e ∈ errors2, e ∈ errors ∨ e.custom = true)
    ∧ (∀ errors path element_type items i errors2,
        validate_list_items true fuel errors path element_type items i = .ok errors2 →
        ∀ e ∈ errors2, e ∈ errors ∨ e.custom = true) := by
  induction fuel with
  | zero =>
    refine ⟨?_, ?_, ?_, ?_, ?_⟩
    · intro errors path property value errors2 ret h
      simp [validate_property] at h
    · intro errors path property value errors2 ret h
      simp [validate_object] at h
    · intro errors path props value errors2 h e he
      cases props with
      | nil => simp [validate_object_items] at h; subst h; exact Or.inl he
      | cons hd tl => simp [validate_object_items] at h
    · intro errors path property value errors2 ret h
      simp [validate_list] at h
    · intro errors path element_type items i errors2 h e he
      cases items with
      | nil => simp [validate_list_items] at h; subst h; exact Or.inl he
      | cons hd tl => simp [validate_list_items] at h
  | succ f ih =>
    obtain ⟨ihp, iho, ihoi, ihl, ihli⟩ := ih
    refine ⟨?_, ?_, ?_, ?_, ?_⟩
    · intro errors path property value errors2 ret h e he
      unfold validate_property at h
      split at h
      · cases h; exact Or.inl he
      · split at h
        · cases h; exact Or.inl he
        · split at h
          · cases h; exact Or.inl he
          · split at h
            · cases h; exact Or.inl he
            · exact iho _ _ _ _ _ _ h e he
            · exact ihl _ _ _ _ _ _ h e he
            · cases h; exact Or.inl he
    · intro errors path property value errors2 ret h e he
      unfold validate_object at h
      split at h
      · cases h; exact Or.inl he
      · split at h
        · cases h
        · split at h
          · cases h
          · rename_i errs3 heq
            cases h
            exact ihoi _ _ _ _ _ heq e he
    · intro errors path props value errors2 h e he
      match props with
      | [] =>
        unfold validate_object_items at h
        cases h; exact Or.inl he
      | (name, prop) :: rest =>
        unfold validate_object_items at h
        dsimp only at h
        split at h
        · cases h
        · split at h
          · cases h
          · rename_i pv _ errs2 ret2 heq
            have hstep := ihoi _ _ _ _ _ h e he
            rcases hstep with hstep | hstep
            · cases ret2 with
              | none =>
                simp only at hstep
                exact ihp _ _ _ _ _ _ heq e hstep
              | some ve =>
                simp only at hstep
                rcases mem_add_error_true _ _ _ hstep with hstep2 | hstep2
                · exact ihp _ _ _ _ _ _ heq e hstep2
                · exact Or.inr hstep2
            · exact Or.inr hstep
    · intro errors path property value errors2 ret h e he
      unfold validate_list at h
      split at h
      · split at h
        · cases h
        · split at h
          · cases h
          · rename_i errs3 heq
            cases h
            exact ihli _ _ _ _ _ _ heq e he
      · cases h; exact Or.inl he
    · intro errors path element_type items i errors2 h e he
      match items with
      | [] =>
        unfold validate_list_items at h
        cases h; exact Or.inl he
      | item :: rest =>
        unfold validate_list_items at h
        dsimp only at h
        split at h
        · cases h
        · rename_i errs2 ret2 heq
          have hstep := ihli _ _ _ _ _ _ h e he
          rcases hstep with hstep | hstep
          · cases ret2 with
            | none =>
              simp only at hstep
              exact ihp _ _ _ _ _ _ heq e hstep
            | some ve =>
              simp only at hstep
              rcases mem_add_error_true _ _ _ hstep with hstep2 | hstep2
              · exact ihp _ _ _ _ _ _ heq e hstep2
              · exact Or.inr hstep2
          · exact Or.inr hstep

/-- C10: for every schema node that is required but not marked invalid,
validation of an absent (`None`) value returns exactly the single
"Required property" error at that node's own path and leaves the
accumulated error list untouched — no descent into the subtree takes
place, so no error beneath that path is produced. -/
theorem C10_required_absent_single_error (disable : Bool) (fuel : Nat)
    (errors : List ValidationError) (path : String) (property : Property)
    (hreq : property.required = true) (hinv : property.invalid = false) :
    validate_property disable (fuel + 1) errors path property Value.none
      = .ok (errors, Option.some
          ⟨Option.some "Required property", property.error_message, path, false⟩) := by
  simp [validate_property, hreq, hinv, Value.isNone]

/-- Witness for C10 at a concrete required string node. -/
theorem C10_witness :
    validate_property false 1 [] "root" (.mk .string true false Option.none) Value.none
      = .ok ([], Option.some ⟨Option.some "Required property", Option.none, "root", false⟩) :=
  C10_required_absent_single_error false 0 [] "root"
    (.mk .string true false Option.none) rfl rfl

/-- C4 (code bug in the source): validating a present non-keyed value
(here the int `5`) against an Object schema node does not emit a
ValidationError at the node's path — with at least one declared child the
validator crashes with `AttributeError` on `value.get`, and with no
declared children it silently emits nothing.  The `value is None` guard of
`validate_object` is unreachable from `validate_property`, which only
dispatches on present values. -/
theorem C4_object_node_crashes_on_nonkeyed_value :
    validate_property false 9 [] ""
        (.mk (.obj [("a", .mk .number false false Option.none)]) false false Option.none)
        (.int 5)
      = .error (.attributeError "int object has no attribute get")
    ∧ validate_property false 9 [] "" (.mk (.obj []) false false Option.none) (.int 5)
      = .ok ([], Option.none) :=
  ⟨rfl, rfl⟩

/-- C5: sibling validation does not short-circuit — for an object node
with two children whose independent validations each return an error, both
errors are accumulated, in declaration order; and validating the list
`[1, "x", 3]` against a numeric element schema yields exactly one error,
at path `[1]`. -/
theorem C5_no_sibling_short_circuit :
    (∀ (f : Nat) (errors : List ValidationError) (path n1 n2 : String)
        (p1 p2 : Property) (v v1 v2 : Value) (e1 e2 : ValidationError)
        (req : Bool) (em : Option String),
      v.pyGet n1 = .ok v1 →
      v.pyGet n2 = .ok v2 →
      validate_property false (f + 1) errors (path ++ "." ++ n1) p1 v1
        = .ok (errors, Option.some e1) →
      validate_property false f (errors ++ [e1]) (path ++ "." ++ n2) p2 v2
        = .ok (errors ++ [e1], Option.some e2) →
      validate_property false (f + 4) errors path
          (.mk (.obj [(n1, p1), (n2, p2)]) req false em) v
        = .ok (errors ++ [e1, e2], Option.none))
    ∧ validate_property false 10 [] "" (.mk (.list .number) false false Option.none)
        (.list [.int 1, .str "x", .int 3])
      = .ok ([⟨Option.some "Invalid value type", Option.none, "[1]", false⟩], Option.none) := by
  constructor
  · intro f errors path n1 n2 p1 p2 v v1 v2 e1 e2 req em hget1 hget2 h1 h2
    match v, hget1 with
    | .dict kvs, hget1 =>
      simp only [validate_property]
      simp only [Property.invalid, Property.required, Property.type, SchemaType.properties,
        Value.isNone]
      simp only [Bool.and_false, Bool.false_eq_true, if_false]
      simp only [validate_object]
      simp only [Value.isNone, SchemaType.properties, Property.type]
      simp only [validate_object_items]
      rw [hget1]
      simp only []
      rw [h1]
      simp only [add_error, Bool.false_and, Bool.false_eq_true, if_false]
      rw [hget2]
      simp only []
      rw [h2]
      simp only [add_error, Bool.false_and, Bool.false_eq_true, if_false]
      simp [List.append_assoc]
  · rfl

/-- Witness for C5: two numeric siblings receiving strings each fail, and
both errors appear, in order. -/
theorem C5_witness :
    validate_property false 5 [] ""
        (.mk (.obj [("a", .mk .number false false Option.none),
                    ("b", .mk .number false false Option.none)]) false false Option.none)
        (.dict [("a", .str "x"), ("b", .str "y")])
      = .ok ([⟨Option.some "Invalid value type", Option.none, ".a", false⟩,
              ⟨Option.some "Invalid value type", Option.none, ".b", false⟩], Option.none) :=
  C5_no_sibling_short_circuit.1 1 [] "" "a" "b"
    (.mk .number false false Option.none) (.mk .number false false Option.none)
    (.dict [("a", .str "x"), ("b", .str "y")]) (.str "x") (.str "y")
    ⟨Option.some "Invalid value type", Option.none, ".a", false⟩
    ⟨Option.some "Invalid value type", Option.none, ".b", false⟩
    false Option.none rfl rfl rfl rfl

/-- C9: `trigger` on a context built without an Executor raises the
"No executor available" `ValueError`; on a context with an Executor it
appends exactly one `InvocationRequest` carrying the operator name and
params to the executor's ordered request list and returns a
success-tagged message carrying that same request. -/
theorem C9_trigger_requires_executor :
    (∀ (ctx : ExecutionContext) (name : String) (params : Option Value),
      ctx.executor = Option.none →
      ExecutionContext.trigger ctx name params = .error (.valueError "No executor available"))
    ∧ (∀ (ctx : ExecutionContext) (ex : Executor) (name : String) (params : Option Value),
      ctx.executor = Option.some ex →
      ExecutionContext.trigger ctx name params
        = .ok ({ ctx with executor :=
                  Option.some (⟨ex.requests ++ [⟨name, pyOr params (Value.dict [])⟩],
                    ex.logs⟩ : Executor) },
               ⟨MessageType.SUCCESS, ⟨name, pyOr params (Value.dict [])⟩⟩)) := by
  constructor
  · intro ctx name params h
    simp [ExecutionContext.trigger, h]
  · intro ctx ex name params h
    simp [ExecutionContext.trigger, Executor.trigger, h]

/-- Witness for C9: both branches at concrete contexts. -/
theorem C9_witness :
    ExecutionContext.trigger (ExecutionContext.create [] Option.none) "other/op" Option.none
      = .error (.valueError "No executor available")
    ∧ ExecutionContext.trigger (ExecutionContext.create [] (Option.some ⟨[], []⟩))
        "other/op" Option.none
      = .ok ({ ExecutionContext.create [] (Option.some ⟨[], []⟩) with
               executor := Option.some ⟨[⟨"other/op", Value.dict []⟩], []⟩ },
             ⟨MessageType.SUCCESS, ⟨"other/op", Value.dict []⟩⟩) :=
  ⟨C9_trigger_requires_executor.1 (ExecutionContext.create [] Option.none)
      "other/op" Option.none rfl,
   C9_trigger_requires_executor.2 (ExecutionContext.create [] (Option.some ⟨[], []⟩))
      ⟨[], []⟩ "other/op" Option.none rfl⟩

/-- C8: with schema validation disabled by the operator config,
`add_error` drops every structural error (`custom = false`) before it
reaches the accumulated list and retains every `custom = true` error, and
consequently every error accumulated by a successfully constructed
`ValidationContext` of such an operator carries `custom = true` — the
context can only be invalid through custom errors. -/
theorem C8_disabled_validation_only_custom_errors :
    (∀ (errors : List ValidationError) (e : ValidationError),
      e.custom = false → add_error true errors e = errors)
    ∧ (∀ (errors : List ValidationError) (e : ValidationError),
      e.custom = true → add_error true errors e = errors ++ [e])
    ∧ (∀ (ctx : ExecutionContext) (inputs : Option Property) (operator : Operator)
        (vc : ValidationContext),
      operator.config.disable_schema_validation = true →
      ValidationContext.create ctx inputs operator = .ok vc →
      ∀ e ∈ vc.errors, e.custom = true) := by
  refine ⟨?_, ?_, ?_⟩
  · intro errors e he
    simp [add_error, he]
  · intro errors e he
    simp [add_error, he]
  · intro ctx inputs operator vc hdis hvc e he
    unfold ValidationContext.create at hvc
    rw [hdis] at hvc
    cases inputs with
    | none =>
      cases hvc
      simp at he
    | some prop =>
      dsimp only at hvc
      split at hvc
      · cases hvc
      · rename_i errs ret heq
        cases hvc
        simp only at he
        cases ret with
        | none =>
          simp only at he
          rcases (validate_disable_only_custom _).1 _ _ _ _ _ _ heq e he with h2 | h2
          · simp at h2
          · exact h2
        | some ve =>
          simp only at he
          rcases mem_add_error_true _ _ _ he with h2 | h2
          · rcases (validate_disable_only_custom _).1 _ _ _ _ _ _ heq e h2 with h3 | h3
            · simp at h3
            · exact h3
          · exact h2

/-- Every successfully returned result envelope of the coordinator body
with `delegated = true` carries no error: the only branch producing a
delegated envelope sets `error := None`. -/
theorem inner_ok_delegated_no_error (env : Env) (uri : String)
    (rp : List (String × Value)) (r : ExecutionResult) (c : Bool) (el : Nat)
    (h : execute_or_delegate_inner env uri rp = (.ok r, c, el))
    (hdel : r.delegated = true) : r.error = Option.none := by
  unfold execute_or_delegate_inner at h
  split at h
  · simp at h
  · split at h <;> simp at h
  · split at h
    · simp at h
    · split at h
      · split at h
        · simp only [Prod.mk.injEq] at h
          obtain ⟨h1, h2, h3⟩ := h
          injection h1 with h1
          subst h1
          simp at hdel
        · simp only [Prod.mk.injEq] at h
          obtain ⟨h1, h2, h3⟩ := h
          injection h1 with h1
          subst h1
          rfl
      · split at h
        · simp only [Prod.mk.injEq] at h
          obtain ⟨h1, h2, h3⟩ := h
          injection h1 with h1
          subst h1
          simp at hdel
        · simp only [Prod.mk.injEq] at h
          obtain ⟨h1, h2, h3⟩ := h
          injection h1 with h1
          subst h1
          simp at hdel

/-- C2: when validation finds the parameters invalid,
`prepare_operator_executor` returns the Failed envelope whose error is the
base message "Validation error" and which carries the full ordered error
list in its ValidationContext, and the coordinator turns it into an
ExecutionError whose message is the base message concatenated with the
(dot-lstripped) path and the reason of the first accumulated error
only. -/
theorem C2_validation_failure_first_error_message (env : Env) (T : Nat) (uri : String)
    (rp : List (String × Value)) (op : Operator) (ctx1 : ExecutionContext)
    (inputs : Option Property) (vc : ValidationContext) (e : ValidationError)
    (es : List ValidationError) (t1 t2 : Nat)
    (hreg : env.registry uri = Option.some op)
    (hsec : resolve_secret_values env.get_secret
        (ExecutionContext.create rp (Option.some ⟨[], []⟩)) op.plugin_secrets
      = (.ok ctx1, t1))
    (hin : op.resolve_input ctx1 = (.ok inputs, t2))
    (hval : ValidationContext.create ctx1 inputs op = .ok vc)
    (hinv : vc.invalid = true)
    (herr : vc.errors = e :: es)
    (ht : t1 + t2 ≤ T) :
    prepare_operator_executor env uri rp
      = (.ok (.failed { result := Option.none, executor := Option.none
                        error := Option.some "Validation error"
                        validation_ctx := Option.some vc, delegated := false }), t1 + t2)
    ∧ (execute_or_delegate_operator env T uri rp).1
      = .error (.executionError (Option.some ("Validation error. Path: " ++ lstripDots e.path
          ++ ". Reason: " ++ pyShowOpt e.reason))) := by
  have hprep : prepare_operator_executor env uri rp
      = (.ok (.failed { result := Option.none, executor := Option.none
                        error := Option.some "Validation error"
                        validation_ctx := Option.some vc, delegated := false }), t1 + t2) := by
    unfold prepare_operator_executor
    rw [hreg]
    dsimp only
    rw [hsec]
    dsimp only
    rw [hin]
    dsimp only
    rw [hval]
    dsimp only
    rw [hinv]
    simp
  refine ⟨hprep, ?_⟩
  unfold execute_or_delegate_operator execute_or_delegate_inner
  rw [hprep]
  simp only [ExecutionResult.to_exception, hinv, herr]
  have hT : ¬ (T < t1 + t2) := by omega
  simp [hT]

/-- Witness for C2: an operator with a required `name` input invoked with
empty params fails validation; the raised ExecutionError message names the
first (and only) error's path and reason, while the carried context holds
the full list. -/
theorem C2_witness :
    prepare_operator_executor envC2 "test/say_hello" []
      = (.ok (.failed { result := Option.none, executor := Option.none
                        error := Option.some "Validation error"
                        validation_ctx := Option.some
                          { params := Value.dict []
                            inputs_property := Option.some inputsC2
                            errors := [⟨Option.some "Required property", Option.none,
                              ".name", false⟩]
                            disable_schema_validation := false
                            invalid := true }
                        delegated := false }), 0)
    ∧ (execute_or_delegate_operator envC2 50 "test/say_hello" []).1
      = .error (.executionError
          (Option.some "Validation error. Path: name. Reason: Required property")) :=
  C2_validation_failure_first_error_message envC2 50 "test/say_hello" [] opC2
    (ExecutionContext.create [] (Option.some ⟨[], []⟩)) (Option.some inputsC2)
    { params := Value.dict []
      inputs_property := Option.some inputsC2
      errors := [⟨Option.some "Required property", Option.none, ".name", false⟩]
      disable_schema_validation := false
      invalid := true }
    ⟨Option.some "Required property", Option.none, ".name", false⟩ [] 0 0
    rfl rfl rfl rfl rfl rfl (by omega)

/-- C6: when `resolve_delegation` answers true, the coordinator never
enters the execute branch (the instrumentation flag stays false), and a
successful hand-off to the delegation queue returns an envelope with
`delegated = true` carrying the queued job's snapshot (its embedded
context re-serialized). -/
theorem C6_delegation_skips_execute (env : Env) (T : Nat) (uri : String)
    (rp : List (String × Value)) (op : Operator) (ex : Executor) (ctx : ExecutionContext)
    (t t2 t3 : Nat) (job : QueuedJob)
    (hprep : prepare_operator_executor env uri rp = (.ok (.ready op ex ctx), t))
    (hdel : op.resolve_delegation ctx = (.ok true, t2))
    (hq : env.queue_operation op.uri ctx.serialize op.delegation_target = (.ok job, t3))
    (ht : t + t2 + t3 ≤ T) :
    execute_or_delegate_operator env T uri rp
      = (.ok { result := Option.some (.jobDict (job.context.map ExecutionContext.serialize)
                 job.fields)
               executor := Option.some ex, error := Option.none
               validation_ctx := Option.none, delegated := true }, false) := by
  unfold execute_or_delegate_operator execute_or_delegate_inner
  rw [hprep]
  simp only
  rw [hdel]
  simp only [if_true]
  rw [hq]
  have hT : ¬ (T < t + t2 + t3) := by omega
  simp [hT]

/-- Witness for C6 at a concrete delegating operator. -/
theorem C6_witness :
    execute_or_delegate_operator envC6 50 "test/delegate" []
      = (.ok { result := Option.some (.jobDict Option.none jobC6.fields)
               executor := Option.some ⟨[], []⟩, error := Option.none
               validation_ctx := Option.none, delegated := true }, false) :=
  C6_delegation_skips_execute envC6 50 "test/delegate" [] opC6 ⟨[], []⟩
    (ExecutionContext.create [] (Option.some ⟨[], []⟩)) 0 0 0 jobC6
    rfl rfl rfl (by omega)

/-- C7: every result envelope the coordinator returns with
`delegated = true` has `error = None`, and a failure while queueing the
delegated operation yields a non-delegated envelope whose error string is
the captured traceback. -/
theorem C7_delegated_mutually_exclusive_with_error :
    (∀ (env : Env) (T : Nat) (uri : String) (rp : List (String × Value))
        (r : ExecutionResult) (called : Bool),
      execute_or_delegate_operator env T uri rp = (.ok r, called) →
      r.delegated = true → r.error = Option.none)
    ∧ (∀ (env : Env) (T : Nat) (uri : String) (rp : List (String × Value))
        (op : Operator) (ex : Executor) (ctx : ExecutionContext) (t t2 t3 : Nat) (e : PyErr),
      prepare_operator_executor env uri rp = (.ok (.ready op ex ctx), t) →
      op.resolve_delegation ctx = (.ok true, t2) →
      env.queue_operation op.uri ctx.serialize op.delegation_target = (.error e, t3) →
      t + t2 + t3 ≤ T →
      execute_or_delegate_operator env T uri rp
        = (.ok { result := Option.none, executor := Option.some ex
                 error := Option.some (traceback_format_exc e)
                 validation_ctx := Option.none, delegated := false }, false)) := by
  constructor
  · intro env T uri rp r called h hdel
    unfold execute_or_delegate_operator at h
    rcases hinner : execute_or_delegate_inner env uri rp with ⟨out, c2, el⟩
    rw [hinner] at h
    dsimp only at h
    split at h
    · simp at h
    · simp only [Prod.mk.injEq] at h
      obtain ⟨h1, h2⟩ := h
      subst h1
      exact inner_ok_delegated_no_error env uri rp r c2 el hinner hdel
  · intro env T uri rp op ex ctx t t2 t3 e hprep hdel hq ht
    unfold execute_or_delegate_operator execute_or_delegate_inner
    rw [hprep]
    simp only
    rw [hdel]
    simp only [if_true]
    rw [hq]
    have hT : ¬ (T < t + t2 + t3) := by omega
    simp [hT]

/-- Witness for C7: a concrete delegated run has no error, and a concrete
queue failure yields a non-delegated envelope with the traceback. -/
theorem C7_witness :
    ({ result := Option.some (.jobDict Option.none jobC7.fields)
       executor := Option.some ⟨[], []⟩, error := Option.none
       validation_ctx := Option.none, delegated := true } : ExecutionResult).error
      = Option.none
    ∧ execute_or_delegate_operator envC7q 50 "test/delegate7" []
      = (.ok { result := Option.none, executor := Option.some ⟨[], []⟩
               error := Option.some (traceback_format_exc (.raised "OSError: queue down"))
               validation_ctx := Option.none, delegated := false }, false) :=
  ⟨C7_delegated_mutually_exclusive_with_error.1 envC7 50 "test/delegate7" []
      { result := Option.some (.jobDict Option.none jobC7.fields)
        executor := Option.some ⟨[], []⟩, error := Option.none
        validation_ctx := Option.none, delegated := true } false rfl rfl,
   C7_delegated_mutually_exclusive_with_error.2 envC7q 50 "test/delegate7" [] opC7
      ⟨[], []⟩ (ExecutionContext.create [] (Option.some ⟨[], []⟩)) 0 0 0
      (.raised "OSError: queue down") rfl rfl rfl (by omega)⟩

/-- C1 counterexample: an operator-lookup failure escapes the coordinator
as a raised ValueError instead of being reported as a Failed result
envelope, so not every failure stage is captured. -/
theorem C1_counterexample_lookup_failure_escapes :
    execute_or_delegate_operator envC1miss 1000 "missing/op" []
      = (.error (.valueError "Operator missing/op does not exist"), false) := rfl

/-- C1 (amended): only failures raised while queueing the delegated
operation or inside the operator's execute body are captured and reported
as Failed result envelopes with the error string populated; failures in
operator lookup, secret resolution, input-schema resolution, validation,
and the delegation decision propagate out of the coordinator as raised
exceptions. -/
theorem C1_execute_and_queue_failures_captured :
    (∀ (env : Env) (T : Nat) (uri : String) (rp : List (String × Value))
        (op : Operator) (ex : Executor) (ctx : ExecutionContext) (t t2 t3 : Nat) (e : PyErr),
      prepare_operator_executor env uri rp = (.ok (.ready op ex ctx), t) →
      op.resolve_delegation ctx = (.ok false, t2) →
      op.execute ctx = (.error e, t3) →
      t + t2 + t3 ≤ T →
      execute_or_delegate_operator env T uri rp
        = (.ok { result := Option.none, executor := Option.some ex
                 error := Option.some (traceback_format_exc e)
                 validation_ctx := Option.none, delegated := false }, true))
    ∧ (∀ (env : Env) (T : Nat) (uri : String) (rp : List (String × Value))
        (op : Operator) (ex : Executor) (ctx : ExecutionContext) (t t2 t3 : Nat) (e : PyErr),
      prepare_operator_executor env uri rp = (.ok (.ready op ex ctx), t) →
      op.resolve_delegation ctx = (.ok true, t2) →
      env.queue_operation op.uri ctx.serialize op.delegation_target = (.error e, t3) →
      t + t2 + t3 ≤ T →
      execute_or_delegate_operator env T uri rp
        = (.ok { result := Option.none, executor := Option.some ex
                 error := Option.some (traceback_format_exc e)
                 validation_ctx := Option.none, delegated := false }, false)) := by
  constructor
  · intro env T uri rp op ex ctx t t2 t3 e hprep hdel hexec ht
    unfold execute_or_delegate_operator execute_or_delegate_inner
    rw [hprep]
    simp only
    rw [hdel]
    simp only [Bool.false_eq_true, if_false]
    rw [hexec]
    have hT : ¬ (T < t + t2 + t3) := by omega
    simp [hT]
  · intro env T uri rp op ex ctx t t2 t3 e hprep hdel hq ht
    unfold execute_or_delegate_operator execute_or_delegate_inner
    rw [hprep]
    simp only
    rw [hdel]
    simp only [if_true]
    rw [hq]
    have hT : ¬ (T < t + t2 + t3) := by omega
    simp [hT]

/-- Witness for C1 (amended): a raising execute body and a raising queue
hand-off each produce a returned Failed envelope. -/
theorem C1_witness :
    execute_or_delegate_operator envC1exec 10 "test/boom" []
      = (.ok { result := Option.none, executor := Option.some ⟨[], []⟩
               error := Option.some (traceback_format_exc (.raised "RuntimeError: boom"))
               validation_ctx := Option.none, delegated := false }, true)
    ∧ execute_or_delegate_operator envC1queue 10 "test/queued" []
      = (.ok { result := Option.none, executor := Option.some ⟨[], []⟩
               error := Option.some (traceback_format_exc (.raised "OSError: queue down"))
               validation_ctx := Option.none, delegated := false }, false) :=
  ⟨C1_execute_and_queue_failures_captured.1 envC1exec 10 "test/boom" [] opC1exec
      ⟨[], []⟩ (ExecutionContext.create [] (Option.some ⟨[], []⟩)) 0 0 0
      (.raised "RuntimeError: boom") rfl rfl rfl (by omega),
   C1_execute_and_queue_failures_captured.2 envC1queue 10 "test/queued" [] opC1queue
      ⟨[], []⟩ (ExecutionContext.create [] (Option.some ⟨[], []⟩)) 0 0 0
      (.raised "OSError: queue down") rfl rfl rfl (by omega)⟩

/-- C3 counterexample: with secret resolution (part of the Resolving
stage) taking 101 time units against a limit of 100, the invocation times
out even though the execute body consumes no time at all; the identical
environment with instantaneous secret resolution succeeds.  The timeout
clock therefore starts before the Running state, counting Resolving and
Validating time, contrary to the claim. -/
theorem C3_counterexample_resolving_time_counts :
    execute_or_delegate_operator envC3slow 100 "test/slow" []
      = (.error (.timeoutError "execute_or_delegate_operator timed out"), true)
    ∧ execute_or_delegate_operator envC3fast 100 "test/slow" []
      = (.ok { result := Option.some (.value (.str "fast"))
               executor := Option.some ⟨[], []⟩, error := Option.none
               validation_ctx := Option.none, delegated := false }, true) :=
  ⟨rfl, rfl⟩

/-- C3 (amended): the configurable timeout bounds the whole coordinator
coroutine — preparation (Resolving and Validating) time counts together
with the Running time — and on expiry the invocation resolves to a
timeout failure rather than hanging. -/
theorem C3_timeout_bounds_whole_coroutine (env : Env) (T : Nat) (uri : String)
    (rp : List (String × Value)) (op : Operator) (ex : Executor) (ctx ctx2 : ExecutionContext)
    (tp td te : Nat) (v : Value)
    (hprep : prepare_operator_executor env uri rp = (.ok (.ready op ex ctx), tp))
    (hdel : op.resolve_delegation ctx = (.ok false, td))
    (hexec : op.execute ctx = (.ok (ctx2, v), te)) :
    execute_or_delegate_operator env T uri rp
      = if T < tp + td + te then
          (.error (.timeoutError "execute_or_delegate_operator timed out"), true)
        else
          (.ok { result := Option.some (.value v), executor := ctx2.executor
                 error := Option.none, validation_ctx := Option.none
                 delegated := false }, true) := by
  unfold execute_or_delegate_operator execute_or_delegate_inner
  rw [hprep]
  simp only
  rw [hdel]
  simp only [Bool.false_eq_true, if_false]
  rw [hexec]

/-- Witness for C3 (amended): the slow-resolving environment with limit
100 lands in the timeout branch of the amended statement. -/
theorem C3_witness :
    execute_or_delegate_operator envC3slow 100 "test/slow" []
      = if 100 < 101 + 0 + 0 then
          (.error (.timeoutError "execute_or_delegate_operator timed out"), true)
        else
          (.ok { result := Option.some (.value (.str "fast"))
                 executor := Option.some ⟨[], []⟩, error := Option.none
                 validation_ctx := Option.none, delegated := false }, true) :=
  C3_timeout_bounds_whole_coroutine envC3slow 100 "test/slow" [] opC3 ⟨[], []⟩
    { request_params := [], params := Value.dict []
      executor := Option.some ⟨[], []⟩, secrets := [("api_key", "v")] }
    { request_params := [], params := Value.dict []
      executor := Option.some ⟨[], []⟩, secrets := [("api_key", "v")] }
    101 0 0 (.str "fast") rfl rfl rfl

/-- Witness for C8: a structural type mismatch is dropped, and the
resulting context is valid with no errors, while an explicit custom error
is retained by `add_error`. -/
theorem C8_witness :
    add_error true [] ⟨Option.some "Invalid value type", Option.none, "", false⟩ = []
    ∧ add_error true [] ⟨Option.some "bad schema", Option.none, "", true⟩
      = [⟨Option.some "bad schema", Option.none, "", true⟩] :=
  ⟨C8_disabled_validation_only_custom_errors.1 []
      ⟨Option.some "Invalid value type", Option.none, "", false⟩ rfl,
   C8_disabled_validation_only_custom_errors.2.1 []
      ⟨Option.some "bad schema", Option.none, "", true⟩ rfl⟩

end Fiftyone
